import Mathlib

/-!
Verification of the page-analysis pipeline (src/analyzer.py, with
src/streamlit_app.py a near-verbatim copy of the same functions).

The Python code is shallowly embedded: pure functions over parsed
documents become Lean functions over an explicit document model, the
network and the external text-completion service are modelled as
explicit outcome values fed to the orchestrator, and a Python
exception that escapes a function is modelled as `Except.error`.
-/

namespace PageTuner

/-- Models the character class stripped by Python `str.strip()` with no
arguments (ASCII whitespace; the exotic Unicode whitespace also stripped
by Python does not occur in any input considered here). -/
def isPyWs (c : Char) : Bool :=
  c = ' ' || c = '\t' || c = '\n' || c = '\r' || c = '\x0b' || c = '\x0c'

/-- Models Python `str.strip()`: drop leading and trailing whitespace. -/
def pyStrip (s : String) : String :=
  String.mk (((s.data.dropWhile isPyWs).reverse.dropWhile isPyWs).reverse)

/-- Auxiliary loop for `pySplitOnChar`, structural over the character list. -/
def splitCharAux (sep : Char) : List Char → List Char → List (List Char)
  | [], cur => [cur.reverse]
  | c :: cs, cur =>
    if c = sep then cur.reverse :: splitCharAux sep cs []
    else splitCharAux sep cs (c :: cur)

/-- Models Python `str.split(sep)` for a one-character separator:
splits at every occurrence, keeping empty pieces; the empty string
yields `[""]`. -/
def pySplitOnChar (sep : Char) (s : String) : List String :=
  (splitCharAux sep s.data []).map String.mk

/-- Models Python `str.startswith(p)`. -/
def pyStartsWith (p s : String) : Bool :=
  p.data.isPrefixOf s.data

/-- Models Python slicing `s[:n]` (first `n` characters). -/
def pyTake (n : Nat) (s : String) : String :=
  String.mk (s.data.take n)

/-- Models Python slicing `s[n:]` (drop the first `n` characters). -/
def pyDrop (n : Nat) (s : String) : String :=
  String.mk (s.data.drop n)

/-- Models the Python `repr` of a list of strings, e.g. `['div', 'p']`
(single quotes written as hex escapes). -/
def pyListRepr (xs : List String) : String :=
  "[" ++ String.intercalate ", " (xs.map (fun s => "\x27" ++ s ++ "\x27")) ++ "]"

/-! ## Q&A pairs (get_topical_gaps, analyzer.py lines 93-101) -/

/-- A question/answer pair as built by the Q&A line parser. -/
structure QnAPair where
  question : String
  answer : String
deriving Repr, DecidableEq

/-- Models `qna_pairs[-1]['answer'] = ...`: replace the answer of the
last pair of a list (no-op on an empty list, but the caller guards
against that case). -/
def setLastAnswer : List QnAPair → String → List QnAPair
  | [], _ => []
  | [p], a => [⟨p.question, a⟩]
  | p :: q :: ps, a => p :: setLastAnswer (q :: ps) a

/-- The Q&A line scanning loop of `get_topical_gaps` (analyzer.py lines
95-99): a line starting with `Q:` appends a new pair with the rest of
the line stripped and an empty answer; a line starting with `A:`, when
the pair list is non-empty, overwrites the last pair's answer; every
other line is ignored. -/
def scanQnaLines : List String → List QnAPair → List QnAPair
  | [], acc => acc
  | l :: rest, acc =>
    if pyStartsWith "Q:" l then
      scanQnaLines rest (acc ++ [⟨pyStrip (pyDrop 2 l), ""⟩])
    else if pyStartsWith "A:" l && !acc.isEmpty then
      scanQnaLines rest (setLastAnswer acc (pyStrip (pyDrop 2 l)))
    else
      scanQnaLines rest acc

/-- The Q&A parser of `get_topical_gaps`: Python
`qna_text.strip().split('\n')` followed by the scanning loop. -/
def parse_qna (text : String) : List QnAPair :=
  scanQnaLines (pySplitOnChar '\n' (pyStrip text)) []

/-- Modelled from the spec claim wording: one step of the line state
machine whose state is the list of completed pairs together with the
currently open pair (if any).  A `Q:` line closes the open pair and
opens a new one with empty answer; an `A:` line fills the open pair's
answer when a pair is open and is ignored otherwise; any other line is
ignored. -/
def qnaMachineStep : List QnAPair × Option QnAPair → String → List QnAPair × Option QnAPair
  | (done, cur), l =>
    if pyStartsWith "Q:" l then
      (done ++ cur.toList, some ⟨pyStrip (pyDrop 2 l), ""⟩)
    else if pyStartsWith "A:" l then
      match cur with
      | some p => (done, some ⟨p.question, pyStrip (pyDrop 2 l)⟩)
      | none => (done, none)
    else (done, cur)

/-- Modelled from the spec claim wording: run the line state machine
over the stripped, newline-split completion text and emit the completed
pairs followed by the still-open pair. -/
def qnaMachine (text : String) : List QnAPair :=
  let st := (pySplitOnChar '\n' (pyStrip text)).foldl qnaMachineStep ([], none)
  st.1 ++ st.2.toList

/-! ## Meta-tag analysis (analyze_meta_tags, analyzer.py lines 123-156) -/

/-- The `<title>` element as the document model exposes it: `stringVal`
models BeautifulSoup `.string` (the sole text child, if any) and
`getTextStrip` models `get_text(strip=True)`. -/
structure TitleTag where
  stringVal : Option String
  getTextStrip : String
deriving Repr, DecidableEq

/-- The `<meta name="description">` element: `content` is its `content`
attribute, absent when the attribute is missing (Python
`tag.get('content', '')` then defaults it to the empty string). -/
structure MetaDescTag where
  content : Option String
deriving Repr, DecidableEq

/-- One `{'text': ..., 'length': ..., 'status': ...}` entry of the
meta-tag report; `status` holds the exact status string of the source
('Missing', 'Empty', 'Good', '❌ Too long'). -/
structure MetaField where
  text : String
  length : Nat
  status : String
deriving Repr, DecidableEq

/-- The two-field dictionary returned by `analyze_meta_tags`. -/
structure MetaFindings where
  title : MetaField
  meta_description : MetaField
deriving Repr, DecidableEq

/-- The status chain of analyzer.py lines 135-139 and 148-152: `Empty`
at length zero, `❌ Too long` strictly above the threshold, else
`Good`. -/
def metaFieldStatus (len threshold : Nat) : String :=
  if len = 0 then "Empty"
  else if len > threshold then "❌ Too long"
  else "Good"

/-- The report entry for one present field: its text, its length, and
the status determined by `metaFieldStatus`. -/
def presentMetaField (text : String) (threshold : Nat) : MetaField :=
  ⟨text, text.length, metaFieldStatus text.length threshold⟩

/-- `analyze_meta_tags` (analyzer.py lines 123-156): both fields start
at the `{'text': '', 'length': 0, 'status': 'Missing'}` default; a
present title is measured by its `get_text(strip=True)` length against
threshold 65, a present meta description by its stripped `content`
attribute against threshold 160.  A present BeautifulSoup tag is always
truthy (bs4 `Tag.__bool__` returns `True` even for empty tags), so
`if title_tag:` is a pure presence test. -/
def analyze_meta_tags (titleTag : Option TitleTag) (metaDesc : Option MetaDescTag) :
    MetaFindings :=
  let titleField :=
    match titleTag with
    | none => (⟨"", 0, "Missing"⟩ : MetaField)
    | some tag => presentMetaField tag.getTextStrip 65
  let descField :=
    match metaDesc with
    | none => (⟨"", 0, "Missing"⟩ : MetaField)
    | some tag => presentMetaField (pyStrip (tag.content.getD "")) 160
  ⟨titleField, descField⟩

/-! ## Heading hierarchy (analyze_heading_structure, analyzer.py lines 24-46) -/

/-- The findings `analyze_heading_structure` can emit, as constructors;
`HeadingFinding.render` below reproduces the exact message strings of
the source. -/
inductive HeadingFinding where
  | errorNoH1 : HeadingFinding
  | warnMultiH1 (count : Nat) : HeadingFinding
  | hierError (fromLvl toLvl : Nat) (truncText : String) : HeadingFinding
  | success : HeadingFinding
deriving Repr, DecidableEq

/-- The exact finding strings appended by the source. -/
def HeadingFinding.render : HeadingFinding → String
  | .errorNoH1 => "❌ **Error:** No `<h1>` tag found."
  | .warnMultiH1 n =>
    "⚠️ **Warning:** Found " ++ toString n ++ " `<h1>` tags. There should only be one."
  | .hierError a b t =>
    "❌ **Hierarchy Error:** Skipped from `<h" ++ toString a ++ ">` to `<h"
      ++ toString b ++ ">`. Text: \"" ++ t ++ "...\""
  | .success => "✅ **Success:** Heading structure is logical."

/-- True exactly on hierarchy-error findings. -/
def HeadingFinding.isHierErr : HeadingFinding → Bool
  | .hierError _ _ _ => true
  | _ => false

/-- True exactly on the missing-h1 error finding. -/
def HeadingFinding.isErrNoH1 : HeadingFinding → Bool
  | .errorNoH1 => true
  | _ => false

/-- True exactly on the multiple-h1 warning finding. -/
def HeadingFinding.isWarn : HeadingFinding → Bool
  | .warnMultiH1 _ => true
  | _ => false

/-- The pairwise walk of analyzer.py lines 37-41: `last` is the level of
the previous heading; a step to a heading more than one level deeper
appends a hierarchy-error finding carrying the first 50 characters of
that heading's stripped text (`get_text(strip=True)[:50]`); `last` is
updated to the current level whether or not a finding was produced. -/
def hierWalk (last : Nat) : List (Nat × String) → List HeadingFinding
  | [] => []
  | (lvl, txt) :: rest =>
    (if lvl > last + 1 then [HeadingFinding.hierError last lvl (pyTake 50 txt)] else [])
      ++ hierWalk lvl rest

/-- Number of `<h1>` headings (`soup.find_all('h1')`) in the document
model, where a heading is a `(level, stripped text)` pair in document
order. -/
def h1Count (hs : List (Nat × String)) : Nat :=
  (hs.filter (fun h => h.1 = 1)).length

/-- The `<h1>`-count findings of analyzer.py lines 29-33: an error when
no `<h1>` exists, a warning carrying the count when more than one
does. -/
def h1Findings (hs : List (Nat × String)) : List HeadingFinding :=
  if h1Count hs = 0 then [.errorNoH1]
  else if h1Count hs > 1 then [.warnMultiH1 (h1Count hs)]
  else []

/-- The hierarchy findings of analyzer.py lines 35-41: the pairwise
walk, entered only when the document has at least two headings, seeded
with the first heading's level. -/
def hierFindings (hs : List (Nat × String)) : List HeadingFinding :=
  match hs with
  | [] => []
  | (l, _) :: rest => if hs.length > 1 then hierWalk l rest else []

/-- `analyze_heading_structure` (analyzer.py lines 24-46) over the
document-order `h1`..`h6` sequence: missing-h1 error or multiple-h1
warning, then the pairwise hierarchy walk, and a single success finding
when nothing else was produced. -/
def analyze_heading_structure (hs : List (Nat × String)) : List HeadingFinding :=
  let findings := h1Findings hs ++ hierFindings hs
  if findings.isEmpty then [.success] else findings

/-- The finding strings exactly as the Python function returns them. -/
def analyze_heading_structure_strings (hs : List (Nat × String)) : List String :=
  (analyze_heading_structure hs).map HeadingFinding.render

/-- Number of adjacent positions in the heading sequence whose level
jumps by more than one. -/
def adjViolations (hs : List (Nat × String)) : Nat :=
  (hs.zip hs.tail).countP (fun p => p.2.1 > p.1.1 + 1)

/-! ## JSON values and structured-data detection (audit_for_schema,
analyzer.py lines 105-121) -/

/-- JSON values as produced by `json.loads`; object key lists are in
document order with distinct keys (Python dicts), and JSON numbers are
modelled as integers (no claim inspects a numeric value). -/
inductive Json where
  | null : Json
  | bool (b : Bool) : Json
  | num (n : Int) : Json
  | str (s : String) : Json
  | arr (xs : List Json) : Json
  | obj (kvs : List (String × Json)) : Json

/-- Models Python `dict.get(k)` on a JSON object: the value stored at
`k`, or `None` when the key is absent. -/
def jget (kvs : List (String × Json)) (k : String) : Option Json :=
  (kvs.find? (fun p => p.1 = k)).map (fun p => p.2)

/-- The `{'Article': ..., 'FAQPage': ...}` accumulator of
`audit_for_schema`. -/
structure SchemaFlags where
  Article : Bool
  FAQPage : Bool
deriving Repr, DecidableEq

/-- Models the Python comparison `schema_type == s` where `schema_type`
is `item.get('@type')`: true only when the stored value is exactly the
string `s` (a list, a missing key, or any other shape compares
unequal). -/
def isTypeMatch (t : Option Json) (s : String) : Bool :=
  match t with
  | some (.str s2) => s2 = s
  | _ => false

/-- The per-item flag update of analyzer.py lines 114-118: set
`Article` when `item.get('@type') == 'Article'`, else set `FAQPage`
when it equals `'FAQPage'`, else leave the flags unchanged. -/
def updateItemFlags (acc : SchemaFlags) (kvs : List (String × Json)) : SchemaFlags :=
  let t := jget kvs "@type"
  if isTypeMatch t "Article" then ⟨true, acc.FAQPage⟩
  else if isTypeMatch t "FAQPage" then ⟨acc.Article, true⟩
  else acc

/-- The `for item in graph` loop: objects update the flags; the first
non-object item raises `AttributeError` at `item.get`, which the
enclosing `except` catches, abandoning the rest of this script block
while keeping the flags accumulated so far. -/
def scanGraph : SchemaFlags → List Json → SchemaFlags
  | acc, [] => acc
  | acc, .obj kvs :: rest => scanGraph (updateItemFlags acc kvs) rest
  | acc, _ :: _ => acc

/-- One `<script type="application/ld+json">` element as
`audit_for_schema` consumes it, via `json.loads(tag.string)`:
`noString` is a tag whose bs4 `.string` is `None` (no single text
child — e.g. the empty `<script></script>` element, or one holding
several nodes); `malformed` is a text child `json.loads` rejects
(`JSONDecodeError`); `parsed` is a successful parse. -/
inductive ScriptBlock where
  | noString : ScriptBlock
  | malformed : ScriptBlock
  | parsed (v : Json) : ScriptBlock

/-- Processing of one `<script type="application/ld+json">` block
(analyzer.py lines 110-120).  A `noString` tag makes
`json.loads(None)` raise `TypeError`, which the
`except (json.JSONDecodeError, AttributeError)` handler does not
catch — modelled as `Except.error`.  A `malformed` text child raises
`JSONDecodeError` (caught: block skipped).  For a parsed object,
`data.get('@graph', [data])` selects the `@graph` value when the key
is present and `[data]` otherwise; iterating a string or a dict yields
strings (first item raises `AttributeError`, caught, block abandoned),
while iterating `null`, a boolean or a number raises `TypeError`,
again uncaught.  A parsed non-object raises `AttributeError` at
`data.get` (caught, block skipped). -/
def auditBlock (acc : SchemaFlags) : ScriptBlock → Except Unit SchemaFlags
  | .noString => .error ()
  | .malformed => .ok acc
  | .parsed (.obj kvs) =>
    match jget kvs "@graph" with
    | none => .ok (scanGraph acc [Json.obj kvs])
    | some (.arr xs) => .ok (scanGraph acc xs)
    | some (.str _) => .ok acc
    | some (.obj _) => .ok acc
    | some _ => .error ()
  | .parsed _ => .ok acc

/-- The `for tag in script_tags` loop of `audit_for_schema`: fold the
per-block processing over all blocks, starting from both flags false;
an uncaught `TypeError` aborts the whole function. -/
def auditBlocks : SchemaFlags → List ScriptBlock → Except Unit SchemaFlags
  | acc, [] => .ok acc
  | acc, b :: rest =>
    match auditBlock acc b with
    | .error e => .error e
    | .ok acc2 => auditBlocks acc2 rest

/-- `audit_for_schema` (analyzer.py lines 105-121) over the list of
`application/ld+json` script blocks of the page, in document order. -/
def audit_for_schema (blocks : List ScriptBlock) : Except Unit SchemaFlags :=
  auditBlocks ⟨false, false⟩ blocks

/-- True on the JSON documents the specification describes: an object,
optionally carrying a `@graph` key whose value is an array of
objects. -/
def ldWellFormed : Json → Bool
  | .obj kvs =>
    match jget kvs "@graph" with
    | none => true
    | some (.arr xs) => xs.all (fun x => match x with | .obj _ => true | _ => false)
    | some _ => false
  | _ => false

/-- Well-formedness of one script block: a text child that is
malformed JSON is allowed (it is skipped), a parsed document must be
spec-shaped, and a tag with no text child (`noString`, where the
source raises an uncaught `TypeError`) is excluded. -/
def blockWf : ScriptBlock → Bool
  | .noString => false
  | .malformed => true
  | .parsed v => ldWellFormed v

/-- The objects one script block contributes to the scan: the `@graph`
array when present, the document itself otherwise, nothing for a block
without a successful parse. -/
def ldItems : ScriptBlock → List Json
  | .parsed (.obj kvs) =>
    (match jget kvs "@graph" with
     | some (.arr xs) => xs
     | _ => [Json.obj kvs])
  | _ => []

/-- All objects scanned across all script blocks, in scan order. -/
def scannedItems (blocks : List ScriptBlock) : List Json :=
  (blocks.map ldItems).flatten

/-- True when a scanned value is an object whose `@type` equals `s`. -/
def objTypeIs (s : String) : Json → Bool
  | .obj kvs => isTypeMatch (jget kvs "@type") s
  | _ => false

/-! ## FAQ and Article schema synthesis (generate_faq_schema and
generate_article_schema, analyzer.py lines 200-217) -/

/-- Models the escaping `json.dumps` applies inside string literals
(quote, backslash and common control characters; the `\\uXXXX` escapes
for other control characters and the ensure-ascii transliteration are
not needed by any claim). -/
def jsonEscapeChar (c : Char) : String :=
  if c = '"' then "\\\""
  else if c = '\\' then "\\\\"
  else if c = '\n' then "\\n"
  else if c = '\t' then "\\t"
  else if c = '\r' then "\\r"
  else String.singleton c

/-- Escape every character of a string for a JSON string literal. -/
def jsonEscape (s : String) : String :=
  String.join (s.data.map jsonEscapeChar)

mutual

/-- Models the `json.dumps` serialization of a JSON document.  The
source calls `json.dumps(schema, indent=4)`; the indentation whitespace
of the Python output is not reproduced (no claim inspects it), the
document structure is. -/
def Json.dumps : Json → String
  | .null => "null"
  | .bool b => if b then "true" else "false"
  | .num n => toString n
  | .str s => "\"" ++ jsonEscape s ++ "\""
  | .arr xs => "[" ++ String.intercalate ", " (dumpsArr xs) ++ "]"
  | .obj kvs => "\x7b" ++ String.intercalate ", " (dumpsObj kvs) ++ "\x7d"

/-- Serialize the elements of a JSON array. -/
def dumpsArr : List Json → List String
  | [] => []
  | x :: xs => Json.dumps x :: dumpsArr xs

/-- Serialize the entries of a JSON object. -/
def dumpsObj : List (String × Json) → List String
  | [] => []
  | (k, v) :: kvs => ("\"" ++ jsonEscape k ++ "\": " ++ Json.dumps v) :: dumpsObj kvs

end

/-- Python truthiness of both strings of a pair: `pair['question'] and
pair['answer']` holds iff both are non-empty. -/
def usable (p : QnAPair) : Bool :=
  p.question ≠ "" && p.answer ≠ ""

/-- The `{"@type": "Question", ...}` entity built for one usable pair
(analyzer.py line 213). -/
def mkQuestionEntity (p : QnAPair) : Json :=
  .obj [("@type", .str "Question"), ("name", .str p.question),
        ("acceptedAnswer", .obj [("@type", .str "Answer"), ("text", .str p.answer)])]

/-- The document `generate_faq_schema` serializes: `None` when the
input list is empty or no pair survives the both-non-empty filter,
otherwise the FAQPage object whose `mainEntity` holds one Question
entity per usable pair in input order. -/
def faqSchemaJson (qna : List QnAPair) : Option Json :=
  if qna.isEmpty then none
  else
    let mainEntity := (qna.filter usable).map mkQuestionEntity
    if mainEntity.isEmpty then none
    else
      some (.obj [("@context", .str "https://schema.org"), ("@type", .str "FAQPage"),
                  ("mainEntity", .arr mainEntity)])

/-- `generate_faq_schema` (analyzer.py lines 206-217): the serialized
document, or `None`. -/
def generate_faq_schema (qna : List QnAPair) : Option String :=
  (faqSchemaJson qna).map Json.dumps

/-- `generate_article_schema` (analyzer.py lines 200-204): headline is
the first `<h1>`'s stripped text when one exists, else the fixed
placeholder; `mainEntityOfPage` is a WebPage entity carrying the input
URL. -/
def generate_article_schema (headings : List (Nat × String)) (url : String) : String :=
  let title :=
    match headings.find? (fun h => h.1 = 1) with
    | some h => h.2
    | none => "No H1 Title Found"
  Json.dumps (.obj [("@context", .str "https://schema.org"), ("@type", .str "Article"),
                    ("headline", .str title),
                    ("mainEntityOfPage", .obj [("@type", .str "WebPage"), ("@id", .str url)])])

/-! ## Semantic HTML audit (audit_semantic_html, analyzer.py lines 48-64) -/

/-- The empty-bold warning string of analyzer.py line 54. -/
def emptyBoldMsg : String :=
  "⚠️ **Warning:** Found an empty `<strong>` or `<b>` tag."

/-- The invalid-list-children error string of analyzer.py line 59. -/
def structureErrMsg (name : String) (invalid : List String) : String :=
  "❌ **Structure Error:** Found a `<" ++ name ++ ">` tag with invalid direct children: "
    ++ pyListRepr invalid ++ ". Only `<li>` tags are allowed."

/-- The semantic-audit success string of analyzer.py line 62. -/
def semSuccessMsg : String :=
  "✅ **Success:** Basic semantic HTML looks good."

/-- `audit_semantic_html` (analyzer.py lines 48-64) over the document
model: `strongTexts` is the stripped text of every `strong`/`b` tag in
document order, `listTags` pairs every `ul`/`ol` tag name with the tag
names of its direct element children (text and comment children have
`name` `None` in bs4 and are already excluded by the source's
`child.name and` test). -/
def audit_semantic_html (strongTexts : List String)
    (listTags : List (String × List String)) : List String :=
  let boldFindings := strongTexts.filterMap
    (fun t => if t = "" then some emptyBoldMsg else none)
  let listFindings := listTags.filterMap
    (fun nt =>
      let invalid := nt.2.filter (fun c => c ≠ "li")
      if invalid.isEmpty then none else some (structureErrMsg nt.1 invalid))
  let findings := boldFindings ++ listFindings
  if findings.isEmpty then [semSuccessMsg] else findings

/-! ## Fetcher (fetch_page, analyzer.py lines 15-22) -/

/-- The network-layer result of `client.get(url, follow_redirects=True,
timeout=15.0)`: either the request failed before an HTTP response was
obtained (`httpx.RequestError`, covering DNS, connection and timeout
failures, with its message) or a final HTTP response arrived with a
status code and a body text. -/
inductive FetchOutcome where
  | requestError (msg : String) : FetchOutcome
  | response (status : Nat) (body : String) : FetchOutcome
deriving Repr, DecidableEq

/-- A Python exception escaping a function of this program. -/
inductive PyExn where
  | httpStatusError (status : Nat) : PyExn
  | typeError : PyExn
deriving Repr, DecidableEq

/-- Models the `repr` of the `httpx.URL` in the error f-string
(`{exc.request.url!r}`). -/
def urlRepr (url : String) : String :=
  "URL(\x27" ++ url ++ "\x27)"

/-- `fetch_page` (analyzer.py lines 15-22).  A `httpx.RequestError` is
caught and converted to the error string; a response is passed through
`raise_for_status()`, which returns the body for a 2xx status and
raises `httpx.HTTPStatusError` otherwise — and `HTTPStatusError` is not
a subclass of `RequestError`, so that exception escapes the function
(`Except.error`). -/
def fetch_page (url : String) (outcome : FetchOutcome) : Except PyExn String :=
  match outcome with
  | .requestError msg =>
    .ok ("An error occurred while requesting " ++ urlRepr url ++ ": " ++ msg)
  | .response status body =>
    if 200 ≤ status ∧ status ≤ 299 then .ok body
    else .error (.httpStatusError status)

/-! ## Reasoning-client consumers (get_topical_gaps,
get_title_recommendations, get_content_structure_recommendations) -/

/-- The dictionary `get_topical_gaps` returns; every field is optional
because the missing-credential branch returns `{"error": ...}` with no
other keys, matching `dict.get` on absent keys yielding `None`. -/
structure TopicalResult where
  error : Option String
  raw_text : Option String
  structured_qna : Option (List QnAPair)
deriving Repr, DecidableEq

/-- `get_topical_gaps` (analyzer.py lines 71-103): the missing-key
early return, the success branch (raw completion text plus the parsed
Q&A pairs), and the catch-all branch converting any API failure into an
error dictionary.  The network call and response-body extraction are
the environment; their combined outcome is the `call` argument. -/
def get_topical_gaps (apiKeyPresent : Bool) (call : Except String String) : TopicalResult :=
  if !apiKeyPresent then ⟨some "GROQ_API_KEY not found.", none, none⟩
  else
    match call with
    | .ok content => ⟨none, some content, some (parse_qna content)⟩
    | .error e => ⟨some ("An error occurred with the LLM API: " ++ e), some "", some []⟩

/-- The dictionary `get_title_recommendations` returns: `{"error":
msg}` on a missing credential, `{"suggestions": text, "error": None}`
on success, `{"error": msg, "suggestions": ""}` on an API failure. -/
inductive TitleRecResult where
  | missingKey : TitleRecResult
  | ok (suggestions : String) : TitleRecResult
  | fail (msg : String) : TitleRecResult
deriving Repr, DecidableEq

/-- `get_title_recommendations` (analyzer.py lines 158-198). -/
def get_title_recommendations (apiKeyPresent : Bool) (call : Except String String) :
    TitleRecResult :=
  if !apiKeyPresent then .missingKey
  else
    match call with
    | .ok content => .ok content
    | .error e => .fail ("An error occurred with the LLM API: " ++ e)

/-- The dictionary `get_content_structure_recommendations` returns:
`{"error": msg}` on a missing credential, `{"heading_suggestions":
text}` on success, `{"error": msg, "heading_suggestions": ""}` on an
API failure. -/
inductive StructRecResult where
  | missingKey : StructRecResult
  | ok (headingSuggestions : String) : StructRecResult
  | fail (msg : String) : StructRecResult
deriving Repr, DecidableEq

/-- `get_content_structure_recommendations` (analyzer.py lines
219-258). -/
def get_content_structure_recommendations (apiKeyPresent : Bool)
    (call : Except String String) : StructRecResult :=
  if !apiKeyPresent then .missingKey
  else
    match call with
    | .ok content => .ok content
    | .error e => .fail ("An error occurred with the LLM API: " ++ e)

/-! ## Orchestrator (analyze_url, analyzer.py lines 260-314) -/

/-- The parsed document (`BeautifulSoup(html_content, 'html.parser')`)
as the analyzers query it: the document-order `h1`..`h6` sequence as
`(level, stripped text)` pairs, the `<title>` element, the description
meta element, the stripped texts of all `strong`/`b` tags, the
`ul`/`ol` tags with their direct element-children names, and all
`application/ld+json` script blocks (each with its `.string` content
state). -/
structure Doc where
  headings : List (Nat × String)
  titleTag : Option TitleTag
  metaDesc : Option MetaDescTag
  strongTexts : List String
  listTags : List (String × List String)
  ldBlocks : List ScriptBlock

/-- A document with nothing in it. -/
def emptyDoc : Doc := ⟨[], none, none, [], [], []⟩

/-- Everything outside the program that one `analyze_url` run observes:
the network outcome of the page fetch, the parsed document of the
fetched body, the presence of the API credential, the outcomes of the
three text-completion calls, and the readability score `textstat`
computes for the main-content text (a float in Python, abstracted to an
integer — no claim inspects it). -/
structure AnalyzeEnv where
  outcome : FetchOutcome
  doc : Doc
  apiKeyPresent : Bool
  topicalCall : Except String String
  structureCall : Except String String
  titleCall : Except String String
  readability : Int

/-- The per-URL report dictionary: the failed-fetch shape `{"url": ...,
"error": ...}` (analyzer.py line 266) with exactly those two fields, or
the full shape of analyzer.py lines 301-314. -/
inductive Report where
  | failed (url : String) (errorMsg : String) : Report
  | done (url : String) (title : Option String) (metaTags : MetaFindings)
      (llmTitleSuggestions : TitleRecResult) (headingFindings : List HeadingFinding)
      (semanticFindings : List String) (readability : Int) (topicalRawText : Option String)
      (existingSchema : SchemaFlags) (articleSchemaRec : Option String)
      (faqSchemaRec : Option String) (contentStructure : StructRecResult) : Report

/-- Python truthiness of `topical_findings.get("structured_qna")`: a
missing key (`None`) and an empty list are falsy. -/
def qnaTruthy : Option (List QnAPair) → Bool
  | some (_ :: _) => true
  | _ => false

/-- The names of the three reasoning calls `asyncio.gather` issues on
the success path, in source order; the returned trace records which of
them a run executed. -/
def llmCallsTrace : List String :=
  ["get_topical_gaps", "get_content_structure_recommendations", "get_title_recommendations"]

/-- `analyze_url` (analyzer.py lines 260-314).  The fetched value is
classified by `html_content.startswith("An error occurred")`: the
failure branch returns the two-field report immediately with no
reasoning call (empty trace); otherwise the three reasoning calls run,
the synchronous analyzers run, and the recommendation fields are filled
conditionally on the detected schema flags.  An exception escaping
`fetch_page` or `audit_for_schema` escapes `analyze_url` as well
(`Except.error`): nothing in the source catches it. -/
def analyze_url (url : String) (env : AnalyzeEnv) : Except PyExn (Report × List String) :=
  match fetch_page url env.outcome with
  | .error e => .error e
  | .ok html =>
    if pyStartsWith "An error occurred" html then
      .ok (.failed url html, [])
    else
      let topical := get_topical_gaps env.apiKeyPresent env.topicalCall
      let structureRec := get_content_structure_recommendations env.apiKeyPresent env.structureCall
      let titleRec := get_title_recommendations env.apiKeyPresent env.titleCall
      let metaTags := analyze_meta_tags env.doc.titleTag env.doc.metaDesc
      let headingFs := analyze_heading_structure env.doc.headings
      let semFs := audit_semantic_html env.doc.strongTexts env.doc.listTags
      match audit_for_schema env.doc.ldBlocks with
      | .error _ => .error .typeError
      | .ok schema =>
        let title : Option String :=
          match env.doc.titleTag with
          | none => some "No Title Found"
          | some t => t.stringVal
        let articleRec : Option String :=
          if !schema.Article then some (generate_article_schema env.doc.headings url) else none
        let faqRec : Option String :=
          if !schema.FAQPage && qnaTruthy topical.structured_qna then
            generate_faq_schema (topical.structured_qna.getD [])
          else none
        .ok (.done url title metaTags titleRec headingFs semFs env.readability
               topical.raw_text schema articleRec faqRec structureRec,
             llmCallsTrace)

/-! ## Inbound batch handling -/

/-- Modelled from the spec: src/ contains no batch-submission code (the
Streamlit form that collects the URL text lives outside the two source
files), so the inbound contract of spec section 6 is modelled here —
the batch is newline-separated text, each entry trimmed, empty lines
discarded. -/
def parse_batch (raw : String) : List String :=
  ((pySplitOnChar '\n' raw).map pyStrip).filter (fun s => s ≠ "")

/-- Modelled from the spec: the user-facing rejection message for a
batch above the 500-entry cap. -/
def batchTooManyMsg : String := "Too many URLs: the maximum batch size is 500."

/-- Modelled from the spec: the distinct user-facing rejection message
for an empty batch. -/
def batchEmptyMsg : String := "No URLs provided."

/-- Modelled from the spec: the batch runner validates the entry count
first and only fans out per-URL pipelines on an accepted batch; a
rejected batch produces its message and no `analyze_url` run (and hence
no fetch). -/
def run_batch (raw : String) (envOf : String → AnalyzeEnv) :
    String ⊕ List (Except PyExn (Report × List String)) :=
  let urls := parse_batch raw
  if urls.length > 500 then .inl batchTooManyMsg
  else if urls.length = 0 then .inl batchEmptyMsg
  else .inr (urls.map (fun u => analyze_url u (envOf u)))

/-- A closed environment used by concrete evaluations. -/
def defaultEnv : AnalyzeEnv :=
  ⟨.requestError "boom", emptyDoc, false, .error "", .error "", .error "", 0⟩

/-- A newline-joined block of `n` copies of the entry `u`, used to
exercise the batch cap. -/
def repUrls : Nat → String
  | 0 => ""
  | n + 1 => "u\n" ++ repUrls n

/-- The hierarchy finding an adjacent heading pair contributes: one
hierarchy error when the level jumps by more than one, nothing
otherwise. -/
def hierFindingOf (p : (Nat × String) × (Nat × String)) : Option HeadingFinding :=
  if p.2.1 > p.1.1 + 1 then
    some (.hierError p.1.1 p.2.1 (pyTake 50 p.2.2))
  else none

/-!
# Theorems
-/

/-- Replacing the answer of the last element of a snoc list. -/
theorem setLastAnswer_append (xs : List QnAPair) (p : QnAPair) (a : String) :
    setLastAnswer (xs ++ [p]) a = xs ++ [⟨p.question, a⟩] := by
  induction xs with
  | nil => rfl
  | cons x xs ih =>
    cases xs with
    | nil => rfl
    | cons y ys => simpa [setLastAnswer] using ih

/-- The source's single-list accumulator scan agrees with the
completed-pairs/open-pair state machine, provided the state is
reachable (an absent open pair means no pair was ever opened). -/
theorem scanQna_machine (lines : List String) :
    ∀ (done : List QnAPair) (cur : Option QnAPair), (cur = none → done = []) →
      scanQnaLines lines (done ++ cur.toList) =
        (lines.foldl qnaMachineStep (done, cur)).1
          ++ (lines.foldl qnaMachineStep (done, cur)).2.toList := by
  induction lines with
  | nil => intro done cur _; simp [scanQnaLines]
  | cons l rest ih =>
    intro done cur hreach
    by_cases hq : pyStartsWith "Q:" l = true
    · have h1 : scanQnaLines (l :: rest) (done ++ cur.toList) =
          scanQnaLines rest ((done ++ cur.toList) ++ [⟨pyStrip (pyDrop 2 l), ""⟩]) := by
        simp [scanQnaLines, hq]
      have h2 : qnaMachineStep (done, cur) l =
          (done ++ cur.toList, some ⟨pyStrip (pyDrop 2 l), ""⟩) := by
        simp [qnaMachineStep, hq]
      rw [h1, List.foldl_cons, h2]
      have := ih (done ++ cur.toList) (some ⟨pyStrip (pyDrop 2 l), ""⟩) (by intro h; cases h)
      simpa using this
    · by_cases ha : pyStartsWith "A:" l = true
      · cases cur with
        | some p =>
          have h1 : scanQnaLines (l :: rest) (done ++ [p]) =
              scanQnaLines rest (setLastAnswer (done ++ [p]) (pyStrip (pyDrop 2 l))) := by
            have : (done ++ [p]).isEmpty = false := by simp
            simp [scanQnaLines, hq, ha, this]
          have h2 : qnaMachineStep (done, some p) l =
              (done, some ⟨p.question, pyStrip (pyDrop 2 l)⟩) := by
            simp [qnaMachineStep, hq, ha]
          simp only [Option.toList_some] at *
          rw [h1, setLastAnswer_append, List.foldl_cons, h2]
          have := ih done (some ⟨p.question, pyStrip (pyDrop 2 l)⟩) (by intro h; cases h)
          simpa using this
        | none =>
          have hd : done = [] := hreach rfl
          subst hd
          have h1 : scanQnaLines (l :: rest) (([] : List QnAPair) ++ []) =
              scanQnaLines rest [] := by
            simp [scanQnaLines, hq, ha]
          have h2 : qnaMachineStep (([] : List QnAPair), (none : Option QnAPair)) l =
              ([], none) := by
            simp [qnaMachineStep, hq, ha]
          simp only [Option.toList_none] at *
          rw [h1, List.foldl_cons, h2]
          have := ih [] none (fun _ => rfl)
          simpa using this
      · have h1 : scanQnaLines (l :: rest) (done ++ cur.toList) =
            scanQnaLines rest (done ++ cur.toList) := by
          simp [scanQnaLines, hq, ha]
        have h2 : qnaMachineStep (done, cur) l = (done, cur) := by
          cases cur <;> simp [qnaMachineStep, hq, ha]
        rw [h1, List.foldl_cons, h2]
        exact ih done cur hreach

/-- C5: the Q&A line parser scans lines in order — a `Q:` line opens a
new pair with the rest of the line trimmed and an empty answer, an `A:`
line fills the open pair's answer when one is open, every other line
(and an `A:` line with no open pair) is ignored — and the sample input
yields exactly the two stated pairs. -/
theorem qna_parser_spec :
    (∀ text, parse_qna text = qnaMachine text) ∧
    parse_qna "Q: What is X?\nA: X is Y.\nQ: Unanswered?" =
      [⟨"What is X?", "X is Y."⟩, ⟨"Unanswered?", ""⟩] := by
  refine ⟨fun text => ?_, by decide⟩
  have := scanQna_machine (pySplitOnChar '\n' (pyStrip text)) [] none (fun _ => rfl)
  simpa [parse_qna, qnaMachine] using this

/-- The pairwise walk equals mapping each violating adjacent pair to
its hierarchy finding; the seed `(l, lt)` stands for the previous
heading (its text is never reported, only its level). -/
theorem hierWalk_eq (rest : List (Nat × String)) :
    ∀ (l : Nat) (lt : String),
      hierWalk l rest = (((l, lt) :: rest).zip rest).filterMap hierFindingOf := by
  induction rest with
  | nil => intro l lt; simp [hierWalk]
  | cons b rs ih =>
    intro l lt
    obtain ⟨blvl, btxt⟩ := b
    by_cases h : blvl > l + 1 <;>
      simp [hierWalk, hierFindingOf, List.zip_cons_cons, List.filterMap_cons, h,
        ih blvl btxt]

/-- The hierarchy phase of the analyzer in closed form: one finding per
violating adjacent pair of the heading sequence. -/
theorem hierFindings_eq (hs : List (Nat × String)) :
    hierFindings hs = (hs.zip hs.tail).filterMap hierFindingOf := by
  cases hs with
  | nil => rfl
  | cons a rest =>
    obtain ⟨l, lt⟩ := a
    cases rest with
    | nil => simp [hierFindings]
    | cons b rs =>
      have hlen : ((l, lt) :: b :: rs).length > 1 := by simp
      rw [hierFindings, if_pos hlen, hierWalk_eq (b :: rs) l lt]
      rfl

/-- Every finding the hierarchy phase produces is a hierarchy error. -/
theorem mem_hierFindingOf {f : HeadingFinding}
    {l : List ((Nat × String) × (Nat × String))} (hf : f ∈ l.filterMap hierFindingOf) :
    ∃ a b t, f = HeadingFinding.hierError a b t := by
  rcases List.mem_filterMap.mp hf with ⟨p, _, hp⟩
  unfold hierFindingOf at hp
  split at hp
  · exact ⟨p.1.1, p.2.1, pyTake 50 p.2.2, (Option.some_injective _ hp).symm⟩
  · cases hp

/-- Counting hierarchy errors in the mapped pair list counts the
violating pairs. -/
theorem countP_hierFindingOf (l : List ((Nat × String) × (Nat × String))) :
    (l.filterMap hierFindingOf).countP HeadingFinding.isHierErr =
      l.countP (fun p => p.2.1 > p.1.1 + 1) := by
  induction l with
  | nil => rfl
  | cons p ps ih =>
    by_cases h : p.2.1 > p.1.1 + 1 <;>
      simp [hierFindingOf, List.filterMap_cons, List.countP_cons, h, ih,
        HeadingFinding.isHierErr]

/-- The hierarchy phase is silent exactly when no adjacent pair
violates the one-step rule. -/
theorem hierFindings_nil_iff (hs : List (Nat × String)) :
    hierFindings hs = [] ↔ adjViolations hs = 0 := by
  rw [hierFindings_eq, adjViolations, List.filterMap_eq_nil_iff, List.countP_eq_zero]
  constructor
  · intro h p hp
    have hnone := h p hp
    unfold hierFindingOf at hnone
    by_cases hv : p.2.1 > p.1.1 + 1
    · rw [if_pos hv] at hnone; cases hnone
    · simpa using hv
  · intro h p hp
    have hv := h p hp
    unfold hierFindingOf
    rw [if_neg (by simpa using hv)]

/-- C4: the heading-hierarchy analyzer emits the missing-h1 error iff
the document has no `<h1>`, the multiple-h1 warning (carrying the
count) iff it has more than one, one hierarchy-error finding — with the
first 50 characters of the offending heading's text — per adjacent
position whose level jumps by more than one, and a single success
finding exactly when nothing else was produced; levels `[1,2,3]` yield
the success finding and `[1,3]` exactly one hierarchy error. -/
theorem heading_structure_spec (hs : List (Nat × String)) :
    ((analyze_heading_structure hs).countP HeadingFinding.isErrNoH1
        = if h1Count hs = 0 then 1 else 0)
    ∧ ((analyze_heading_structure hs).countP HeadingFinding.isWarn
        = if h1Count hs > 1 then 1 else 0)
    ∧ (h1Count hs > 1 → HeadingFinding.warnMultiH1 (h1Count hs) ∈ analyze_heading_structure hs)
    ∧ ((analyze_heading_structure hs).countP HeadingFinding.isHierErr = adjViolations hs)
    ∧ (∀ a b, (a, b) ∈ hs.zip hs.tail → b.1 > a.1 + 1 →
        HeadingFinding.hierError a.1 b.1 (pyTake 50 b.2) ∈ analyze_heading_structure hs)
    ∧ (HeadingFinding.success ∈ analyze_heading_structure hs ↔
        h1Count hs = 1 ∧ adjViolations hs = 0)
    ∧ (h1Count hs = 1 ∧ adjViolations hs = 0 →
        analyze_heading_structure hs = [HeadingFinding.success])
    ∧ analyze_heading_structure [(1, "a"), (2, "b"), (3, "c")] = [HeadingFinding.success]
    ∧ analyze_heading_structure [(1, "a"), (3, "b")] = [HeadingFinding.hierError 1 3 "b"] := by
  have hzero : ∀ q : HeadingFinding → Bool, (∀ a b t, q (.hierError a b t) = false) →
      (hierFindings hs).countP q = 0 := by
    intro q hq
    rw [List.countP_eq_zero]
    intro f hf
    rw [hierFindings_eq] at hf
    rcases mem_hierFindingOf hf with ⟨a, b, t, rfl⟩
    simp [hq]
  have hcount : (hierFindings hs).countP HeadingFinding.isHierErr = adjViolations hs := by
    rw [hierFindings_eq, countP_hierFindingOf]; rfl
  have hnosucc : HeadingFinding.success ∉ hierFindings hs := by
    intro hmem
    rw [hierFindings_eq] at hmem
    rcases mem_hierFindingOf hmem with ⟨a, b, t, h⟩
    cases h
  by_cases h0 : h1Count hs = 0
  · have hf1 : h1Findings hs = [.errorNoH1] := by simp [h1Findings, h0]
    have hfs : analyze_heading_structure hs = .errorNoH1 :: hierFindings hs := by
      simp [analyze_heading_structure, hf1]
    refine ⟨?_, ?_, ?_, ?_, ?_, ?_, ?_, by decide, by decide⟩
    · rw [hfs]
      simp [List.countP_cons, HeadingFinding.isErrNoH1, h0,
        hzero HeadingFinding.isErrNoH1 (fun _ _ _ => rfl)]
    · rw [hfs]
      have : ¬ h1Count hs > 1 := by omega
      simp [List.countP_cons, HeadingFinding.isWarn, this,
        hzero HeadingFinding.isWarn (fun _ _ _ => rfl)]
    · intro hgt; omega
    · rw [hfs]
      simp [List.countP_cons, HeadingFinding.isHierErr, hcount]
    · intro a b hab hviol
      rw [hfs]
      refine List.mem_cons_of_mem _ ?_
      rw [hierFindings_eq]
      exact List.mem_filterMap.mpr ⟨(a, b), hab, by simp [hierFindingOf, hviol]⟩
    · rw [hfs]
      constructor
      · intro hmem
        rcases List.mem_cons.mp hmem with h | h
        · cases h
        · exact absurd h hnosucc
      · intro ⟨h1, _⟩; omega
    · intro ⟨h1, _⟩; omega
  · by_cases hgt : h1Count hs > 1
    · have hf1 : h1Findings hs = [.warnMultiH1 (h1Count hs)] := by
        simp [h1Findings, h0, hgt]
      have hfs : analyze_heading_structure hs =
          .warnMultiH1 (h1Count hs) :: hierFindings hs := by
        simp [analyze_heading_structure, hf1]
      refine ⟨?_, ?_, ?_, ?_, ?_, ?_, ?_, by decide, by decide⟩
      · rw [hfs]
        simp [List.countP_cons, HeadingFinding.isErrNoH1, h0,
          hzero HeadingFinding.isErrNoH1 (fun _ _ _ => rfl)]
      · rw [hfs]
        simp [List.countP_cons, HeadingFinding.isWarn, hgt,
          hzero HeadingFinding.isWarn (fun _ _ _ => rfl)]
      · intro _; rw [hfs]; exact List.mem_cons_self _ _
      · rw [hfs]
        simp [List.countP_cons, HeadingFinding.isHierErr, hcount]
      · intro a b hab hviol
        rw [hfs]
        refine List.mem_cons_of_mem _ ?_
        rw [hierFindings_eq]
        exact List.mem_filterMap.mpr ⟨(a, b), hab, by simp [hierFindingOf, hviol]⟩
      · rw [hfs]
        constructor
        · intro hmem
          rcases List.mem_cons.mp hmem with h | h
          · cases h
          · exact absurd h hnosucc
        · intro ⟨h1, _⟩; omega
      · intro ⟨h1, _⟩; omega
    · have h1 : h1Count hs = 1 := by omega
      have hf1 : h1Findings hs = [] := by simp [h1Findings, h0, hgt]
      by_cases hf2 : hierFindings hs = []
      · have hviol0 : adjViolations hs = 0 := (hierFindings_nil_iff hs).mp hf2
        have hfs : analyze_heading_structure hs = [.success] := by
          simp [analyze_heading_structure, hf1, hf2]
        refine ⟨?_, ?_, ?_, ?_, ?_, ?_, ?_, by decide, by decide⟩
        · rw [hfs]; simp [List.countP_cons, HeadingFinding.isErrNoH1, h0]
        · rw [hfs]; simp [List.countP_cons, HeadingFinding.isWarn, hgt]
        · intro h; omega
        · rw [hfs, hviol0]; simp [List.countP_cons, HeadingFinding.isHierErr]
        · intro a b hab hviol
          exfalso
          have : HeadingFinding.hierError a.1 b.1 (pyTake 50 b.2) ∈ hierFindings hs := by
            rw [hierFindings_eq]
            exact List.mem_filterMap.mpr ⟨(a, b), hab, by simp [hierFindingOf, hviol]⟩
          rw [hf2] at this
          cases this
        · rw [hfs]; simp [h1, hviol0]
        · intro _; exact hfs
      · have hviolpos : adjViolations hs ≠ 0 := fun h =>
          hf2 ((hierFindings_nil_iff hs).mpr h)
        have hfs : analyze_heading_structure hs = hierFindings hs := by
          have : (hierFindings hs).isEmpty = false := by
            cases hh : hierFindings hs with
            | nil => exact absurd hh hf2
            | cons x xs => rfl
          simp [analyze_heading_structure, hf1, this]
        refine ⟨?_, ?_, ?_, ?_, ?_, ?_, ?_, by decide, by decide⟩
        · rw [hfs]; simp [h0, hzero HeadingFinding.isErrNoH1 (fun _ _ _ => rfl)]
        · rw [hfs]; simp [hgt, hzero HeadingFinding.isWarn (fun _ _ _ => rfl)]
        · intro h; omega
        · rw [hfs]; exact hcount
        · intro a b hab hviol
          rw [hfs, hierFindings_eq]
          exact List.mem_filterMap.mpr ⟨(a, b), hab, by simp [hierFindingOf, hviol]⟩
        · rw [hfs]
          constructor
          · intro hmem; exact absurd hmem hnosucc
          · intro ⟨_, hv⟩; exact absurd hv hviolpos
        · intro ⟨_, hv⟩; exact absurd hv hviolpos

/-- Witness for `heading_structure_spec`: the `[1, 3]` document has the
violating adjacent pair, and the analyzer reports the hierarchy error
carrying the heading's truncated text. -/
theorem heading_structure_spec_witness :
    ((1, "a"), (3, "b")) ∈ ([(1, "a"), (3, "b")] : List (Nat × String)).zip
        ([(1, "a"), (3, "b")] : List (Nat × String)).tail
    ∧ HeadingFinding.hierError 1 3 (pyTake 50 "b")
        ∈ analyze_heading_structure [(1, "a"), (3, "b")] :=
  ⟨by decide,
   (heading_structure_spec [(1, "a"), (3, "b")]).2.2.2.2.1 (1, "a") (3, "b")
     (by decide) (by decide)⟩

/-- The status chain in closed form: each status string characterizes
its length condition, and a present field is never `Missing`. -/
theorem metaFieldStatus_spec (len threshold : Nat) :
    (metaFieldStatus len threshold = "Empty" ↔ len = 0)
    ∧ (metaFieldStatus len threshold = "❌ Too long" ↔ len > threshold)
    ∧ (metaFieldStatus len threshold = "Good" ↔ 0 < len ∧ len ≤ threshold)
    ∧ metaFieldStatus len threshold ≠ "Missing" := by
  unfold metaFieldStatus
  by_cases h0 : len = 0 <;> by_cases hgt : len > threshold <;>
    first
      | (simp [h0, hgt]; omega)
      | simp [h0, hgt]

/-- C3: the meta-tag analyzer reports, independently for the title
(threshold 65, measured on `get_text(strip=True)`) and the meta
description (threshold 160, measured on the stripped `content`
attribute): status `Missing` iff the element is absent, `Empty` iff it
is present with zero trimmed length, `❌ Too long` iff its trimmed
length strictly exceeds the threshold, `Good` otherwise (so a length
exactly equal to the threshold is `Good`), and both fields are always
returned, defaulting to empty text, zero length and `Missing` when
absent. -/
theorem meta_tags_spec (titleTag : Option TitleTag) (metaDesc : Option MetaDescTag) :
    ((analyze_meta_tags titleTag metaDesc).title.status = "Missing" ↔ titleTag = none)
    ∧ ((analyze_meta_tags titleTag metaDesc).title.status = "Empty" ↔
        ∃ t, titleTag = some t ∧ t.getTextStrip.length = 0)
    ∧ ((analyze_meta_tags titleTag metaDesc).title.status = "❌ Too long" ↔
        ∃ t, titleTag = some t ∧ t.getTextStrip.length > 65)
    ∧ ((analyze_meta_tags titleTag metaDesc).title.status = "Good" ↔
        ∃ t, titleTag = some t ∧ 0 < t.getTextStrip.length ∧ t.getTextStrip.length ≤ 65)
    ∧ (∀ t, titleTag = some t →
        (analyze_meta_tags titleTag metaDesc).title.text = t.getTextStrip
        ∧ (analyze_meta_tags titleTag metaDesc).title.length = t.getTextStrip.length)
    ∧ (titleTag = none →
        (analyze_meta_tags titleTag metaDesc).title = ⟨"", 0, "Missing"⟩)
    ∧ ((analyze_meta_tags titleTag metaDesc).meta_description.status = "Missing" ↔
        metaDesc = none)
    ∧ ((analyze_meta_tags titleTag metaDesc).meta_description.status = "Empty" ↔
        ∃ d, metaDesc = some d ∧ (pyStrip (d.content.getD "")).length = 0)
    ∧ ((analyze_meta_tags titleTag metaDesc).meta_description.status = "❌ Too long" ↔
        ∃ d, metaDesc = some d ∧ (pyStrip (d.content.getD "")).length > 160)
    ∧ ((analyze_meta_tags titleTag metaDesc).meta_description.status = "Good" ↔
        ∃ d, metaDesc = some d ∧ 0 < (pyStrip (d.content.getD "")).length
          ∧ (pyStrip (d.content.getD "")).length ≤ 160)
    ∧ (∀ d, metaDesc = some d →
        (analyze_meta_tags titleTag metaDesc).meta_description.text = pyStrip (d.content.getD "")
        ∧ (analyze_meta_tags titleTag metaDesc).meta_description.length
            = (pyStrip (d.content.getD "")).length)
    ∧ (metaDesc = none →
        (analyze_meta_tags titleTag metaDesc).meta_description = ⟨"", 0, "Missing"⟩) := by
  cases titleTag with
  | none =>
    cases metaDesc with
    | none =>
      refine ⟨by simp [analyze_meta_tags], by simp [analyze_meta_tags], by simp [analyze_meta_tags], by simp [analyze_meta_tags],
        by simp, by simp [analyze_meta_tags], by simp [analyze_meta_tags], by simp [analyze_meta_tags], by simp [analyze_meta_tags],
        by simp [analyze_meta_tags], by simp, by simp [analyze_meta_tags]⟩
    | some d =>
      rcases metaFieldStatus_spec (pyStrip (d.content.getD "")).length 160 with
        ⟨he, hl, hg, hm⟩
      refine ⟨by simp [analyze_meta_tags], by simp [analyze_meta_tags], by simp [analyze_meta_tags], by simp [analyze_meta_tags],
        by simp, by simp [analyze_meta_tags], ?_, ?_, ?_, ?_, ?_, by simp⟩
      · simp only [analyze_meta_tags, presentMetaField]
        simpa using hm
      · simp only [analyze_meta_tags, presentMetaField]
        simpa using he
      · simp only [analyze_meta_tags, presentMetaField]
        simpa using hl
      · simp only [analyze_meta_tags, presentMetaField]
        simpa using hg
      · intro d' hd'
        obtain rfl : d = d' := by injection hd'
        simp [analyze_meta_tags, presentMetaField]
  | some t =>
    rcases metaFieldStatus_spec t.getTextStrip.length 65 with ⟨he, hl, hg, hm⟩
    have tpart :
        ((analyze_meta_tags (some t) metaDesc).title.status = "Missing" ↔ some t = none)
        ∧ ((analyze_meta_tags (some t) metaDesc).title.status = "Empty" ↔
            ∃ t', some t = some t' ∧ t'.getTextStrip.length = 0)
        ∧ ((analyze_meta_tags (some t) metaDesc).title.status = "❌ Too long" ↔
            ∃ t', some t = some t' ∧ t'.getTextStrip.length > 65)
        ∧ ((analyze_meta_tags (some t) metaDesc).title.status = "Good" ↔
            ∃ t', some t = some t' ∧ 0 < t'.getTextStrip.length
              ∧ t'.getTextStrip.length ≤ 65)
        ∧ (∀ t', some t = some t' →
            (analyze_meta_tags (some t) metaDesc).title.text = t'.getTextStrip
            ∧ (analyze_meta_tags (some t) metaDesc).title.length
                = t'.getTextStrip.length)
        ∧ (some t = none →
            (analyze_meta_tags (some t) metaDesc).title = ⟨"", 0, "Missing"⟩) := by
      refine ⟨?_, ?_, ?_, ?_, ?_, by simp⟩
      · simp only [analyze_meta_tags, presentMetaField]
        simpa using hm
      · simp only [analyze_meta_tags, presentMetaField]
        simpa using he
      · simp only [analyze_meta_tags, presentMetaField]
        simpa using hl
      · simp only [analyze_meta_tags, presentMetaField]
        simpa using hg
      · intro t' ht'
        obtain rfl : t = t' := by injection ht'
        simp [analyze_meta_tags, presentMetaField]
    cases metaDesc with
    | none =>
      exact ⟨tpart.1, tpart.2.1, tpart.2.2.1, tpart.2.2.2.1, tpart.2.2.2.2.1,
        tpart.2.2.2.2.2, by simp [analyze_meta_tags], by simp [analyze_meta_tags], by simp [analyze_meta_tags],
        by simp [analyze_meta_tags], by simp, by simp [analyze_meta_tags]⟩
    | some d =>
      rcases metaFieldStatus_spec (pyStrip (d.content.getD "")).length 160 with
        ⟨he2, hl2, hg2, hm2⟩
      refine ⟨tpart.1, tpart.2.1, tpart.2.2.1, tpart.2.2.2.1, tpart.2.2.2.2.1,
        tpart.2.2.2.2.2, ?_, ?_, ?_, ?_, ?_, by simp⟩
      · simp only [analyze_meta_tags, presentMetaField]
        simpa using hm2
      · simp only [analyze_meta_tags, presentMetaField]
        simpa using he2
      · simp only [analyze_meta_tags, presentMetaField]
        simpa using hl2
      · simp only [analyze_meta_tags, presentMetaField]
        simpa using hg2
      · intro d' hd'
        obtain rfl : d = d' := by injection hd'
        simp [analyze_meta_tags, presentMetaField]

/-- Witness for `meta_tags_spec`: an absent title is reported with the
default field, and a present 65-character title is `Good` (the
threshold is boundary-inclusive). -/
theorem meta_tags_spec_witness :
    (analyze_meta_tags none none).title = ⟨"", 0, "Missing"⟩
    ∧ (analyze_meta_tags
        (some ⟨some (String.mk (List.replicate 65 'x')), String.mk (List.replicate 65 'x')⟩)
        none).title.status = "Good" :=
  ⟨(meta_tags_spec none none).2.2.2.2.2.1 rfl,
   ((meta_tags_spec
      (some ⟨some (String.mk (List.replicate 65 'x')), String.mk (List.replicate 65 'x')⟩)
      none).2.2.2.1).mpr
     ⟨⟨some (String.mk (List.replicate 65 'x')), String.mk (List.replicate 65 'x')⟩,
      rfl, by decide, by decide⟩⟩

/-- A `@type` exactly equal to one target string never equals the
other. -/
theorem isTypeMatch_unique {t : Option Json} :
    isTypeMatch t "Article" = true → isTypeMatch t "FAQPage" = false := by
  unfold isTypeMatch
  cases t with
  | none => simp
  | some v =>
    cases v <;> simp
    intro h
    simp [h]

/-- The per-item update in closed form: each flag is or-ed with the
exact-match test for its type string. -/
theorem updateItemFlags_eq (acc : SchemaFlags) (kvs : List (String × Json)) :
    updateItemFlags acc kvs =
      ⟨acc.Article || isTypeMatch (jget kvs "@type") "Article",
       acc.FAQPage || isTypeMatch (jget kvs "@type") "FAQPage"⟩ := by
  by_cases ha : isTypeMatch (jget kvs "@type") "Article" = true
  · have hf := isTypeMatch_unique ha
    simp [updateItemFlags, ha, hf]
  · by_cases hq : isTypeMatch (jget kvs "@type") "FAQPage" = true
    · simp [updateItemFlags, ha, hq]
    · simp [updateItemFlags, ha, hq]

/-- Scanning a graph of objects or-accumulates the exact-match tests of
all items. -/
theorem scanGraph_wf (xs : List Json) : ∀ acc : SchemaFlags,
    (∀ x ∈ xs, ∃ kvs, x = Json.obj kvs) →
      scanGraph acc xs =
        ⟨acc.Article || xs.any (objTypeIs "Article"),
         acc.FAQPage || xs.any (objTypeIs "FAQPage")⟩ := by
  induction xs with
  | nil => intro acc _; simp [scanGraph]
  | cons x rest ih =>
    intro acc hwf
    rcases hwf x (List.mem_cons_self x rest) with ⟨kvs, rfl⟩
    rw [scanGraph, ih _ (fun y hy => hwf y (List.mem_cons_of_mem _ hy)),
      updateItemFlags_eq]
    simp [objTypeIs, List.any_cons, Bool.or_assoc]

/-- A flag already set stays set through any graph scan. -/
theorem scanGraph_mono (xs : List Json) : ∀ acc : SchemaFlags,
    (acc.Article = true → (scanGraph acc xs).Article = true)
    ∧ (acc.FAQPage = true → (scanGraph acc xs).FAQPage = true) := by
  induction xs with
  | nil => intro acc; exact ⟨id, id⟩
  | cons x rest ih =>
    intro acc
    cases x with
    | obj kvs =>
      rw [scanGraph]
      refine ⟨fun h => (ih _).1 ?_, fun h => (ih _).2 ?_⟩ <;>
        simp [updateItemFlags_eq, h]
    | null => exact ⟨id, id⟩
    | bool b => exact ⟨id, id⟩
    | num n => exact ⟨id, id⟩
    | str s => exact ⟨id, id⟩
    | arr ys => exact ⟨id, id⟩

/-- Block processing in closed form on spec-shaped blocks: no exception,
and each flag is or-ed with the exact-match test over the block's
scanned objects. -/
theorem auditBlock_wf (b : ScriptBlock) (acc : SchemaFlags) (hwf : blockWf b = true) :
    auditBlock acc b =
      .ok ⟨acc.Article || (ldItems b).any (objTypeIs "Article"),
           acc.FAQPage || (ldItems b).any (objTypeIs "FAQPage")⟩ := by
  cases b with
  | noString => simp [blockWf] at hwf
  | malformed => simp [auditBlock, ldItems]
  | parsed v =>
    cases v with
    | obj kvs =>
      simp only [blockWf, ldWellFormed] at hwf
      cases hg : jget kvs "@graph" with
      | none =>
        have hb : auditBlock acc (ScriptBlock.parsed (Json.obj kvs))
            = .ok (scanGraph acc [Json.obj kvs]) := by
          simp only [auditBlock, hg]
        have hi : ldItems (ScriptBlock.parsed (Json.obj kvs)) = [Json.obj kvs] := by
          simp only [ldItems, hg]
        rw [hb, hi,
          scanGraph_wf [Json.obj kvs] acc (by intro x hx; simp at hx; exact ⟨kvs, hx⟩)]
      | some g =>
        rw [hg] at hwf
        cases g with
        | arr xs =>
          have hxs : ∀ x ∈ xs, ∃ kvs2, x = Json.obj kvs2 := by
            intro x hx
            simp only [] at hwf
            have := List.all_eq_true.mp hwf x hx
            cases x with
            | obj kvs2 => exact ⟨kvs2, rfl⟩
            | null => cases this
            | bool b2 => cases this
            | num n2 => cases this
            | str s2 => cases this
            | arr ys => cases this
          have hb : auditBlock acc (ScriptBlock.parsed (Json.obj kvs))
              = .ok (scanGraph acc xs) := by
            simp only [auditBlock, hg]
          have hi : ldItems (ScriptBlock.parsed (Json.obj kvs)) = xs := by
            simp only [ldItems, hg]
          rw [hb, hi, scanGraph_wf xs acc hxs]
        | null => simp at hwf
        | bool b2 => simp at hwf
        | num n2 => simp at hwf
        | str s2 => simp at hwf
        | obj kvs2 => simp at hwf
    | null => simp [blockWf, ldWellFormed] at hwf
    | bool b2 => simp [blockWf, ldWellFormed] at hwf
    | num n2 => simp [blockWf, ldWellFormed] at hwf
    | str s2 => simp [blockWf, ldWellFormed] at hwf
    | arr xs => simp [blockWf, ldWellFormed] at hwf

/-- Processing one non-failing block continues the loop from its result
flags. -/
theorem auditBlocks_cons_ok {acc acc2 : SchemaFlags} {b : ScriptBlock}
    {rest : List ScriptBlock} (h : auditBlock acc b = .ok acc2) :
    auditBlocks acc (b :: rest) = auditBlocks acc2 rest := by
  rw [auditBlocks, h]

/-- The per-URL scan loop in closed form on spec-shaped blocks. -/
theorem auditBlocks_wf (blocks : List ScriptBlock) : ∀ acc : SchemaFlags,
    blocks.all blockWf = true →
      auditBlocks acc blocks =
        .ok ⟨acc.Article || (scannedItems blocks).any (objTypeIs "Article"),
             acc.FAQPage || (scannedItems blocks).any (objTypeIs "FAQPage")⟩ := by
  induction blocks with
  | nil => intro acc _; simp [auditBlocks, scannedItems]
  | cons b rest ih =>
    intro acc hwf
    rw [List.all_cons, Bool.and_eq_true] at hwf
    rw [auditBlocks_cons_ok (auditBlock_wf b acc hwf.1), ih _ hwf.2]
    have hscan : scannedItems (b :: rest) = ldItems b ++ scannedItems rest := by
      simp [scannedItems]
    rw [hscan]
    simp [List.any_append, Bool.or_assoc]

/-- Characterization of `audit_for_schema` on script blocks whose
content never takes the crashing `noString` path (each block holds
either text `json.loads` rejects — skipped — or an object, possibly
carrying a `@graph` array of objects): the scan returns without
failing, each flag is true iff some scanned object's `@type` is exactly
the matching string, and a flag set by one block survives the
processing of all remaining blocks. -/
theorem audit_schema_spec (blocks : List ScriptBlock) (hwf : blocks.all blockWf = true) :
    ∃ f, audit_for_schema blocks = .ok f
      ∧ (f.Article = true ↔ ∃ v ∈ scannedItems blocks, objTypeIs "Article" v = true)
      ∧ (f.FAQPage = true ↔ ∃ v ∈ scannedItems blocks, objTypeIs "FAQPage" v = true)
      ∧ (∀ (acc : SchemaFlags) (b : ScriptBlock) (g : SchemaFlags),
          auditBlock acc b = .ok g →
            (acc.Article = true → g.Article = true)
            ∧ (acc.FAQPage = true → g.FAQPage = true)) := by
  refine ⟨⟨(scannedItems blocks).any (objTypeIs "Article"),
           (scannedItems blocks).any (objTypeIs "FAQPage")⟩, ?_, ?_, ?_, ?_⟩
  · rw [audit_for_schema, auditBlocks_wf blocks _ hwf]
    simp
  · simp [List.any_eq_true]
  · simp [List.any_eq_true]
  · intro acc b g h
    cases b with
    | noString => exact Except.noConfusion h
    | malformed =>
      simp only [auditBlock, Except.ok.injEq] at h
      subst h
      exact ⟨id, id⟩
    | parsed v =>
      cases v with
      | obj kvs =>
        simp only [auditBlock] at h
        split at h
        · injection h with h2
          subst h2
          exact scanGraph_mono [Json.obj kvs] acc
        · injection h with h2
          subst h2
          exact scanGraph_mono _ acc
        · injection h with h2
          subst h2
          exact ⟨id, id⟩
        · injection h with h2
          subst h2
          exact ⟨id, id⟩
        · exact Except.noConfusion h
      | null =>
        simp only [auditBlock, Except.ok.injEq] at h
        subst h
        exact ⟨id, id⟩
      | bool b2 =>
        simp only [auditBlock, Except.ok.injEq] at h
        subst h
        exact ⟨id, id⟩
      | num n2 =>
        simp only [auditBlock, Except.ok.injEq] at h
        subst h
        exact ⟨id, id⟩
      | str s2 =>
        simp only [auditBlock, Except.ok.injEq] at h
        subst h
        exact ⟨id, id⟩
      | arr xs =>
        simp only [auditBlock, Except.ok.injEq] at h
        subst h
        exact ⟨id, id⟩

/-- Witness for `audit_schema_spec`: a block with `@type` `Article`
followed by a malformed block sets exactly the Article flag. -/
theorem audit_schema_spec_witness :
    ([ScriptBlock.parsed (Json.obj [("@type", Json.str "Article")]),
      ScriptBlock.malformed] : List ScriptBlock).all blockWf = true
    ∧ ∃ f, audit_for_schema [ScriptBlock.parsed (Json.obj [("@type", Json.str "Article")]),
          ScriptBlock.malformed] = .ok f
        ∧ (f.Article = true ↔ ∃ v ∈ scannedItems
            [ScriptBlock.parsed (Json.obj [("@type", Json.str "Article")]),
             ScriptBlock.malformed],
              objTypeIs "Article" v = true)
        ∧ (f.FAQPage = true ↔ ∃ v ∈ scannedItems
            [ScriptBlock.parsed (Json.obj [("@type", Json.str "Article")]),
             ScriptBlock.malformed],
              objTypeIs "FAQPage" v = true)
        ∧ (∀ (acc : SchemaFlags) (b : ScriptBlock) (g : SchemaFlags),
            auditBlock acc b = .ok g →
              (acc.Article = true → g.Article = true)
              ∧ (acc.FAQPage = true → g.FAQPage = true)) :=
  ⟨by decide,
   audit_schema_spec [ScriptBlock.parsed (Json.obj [("@type", Json.str "Article")]),
     ScriptBlock.malformed] (by decide)⟩

/-- C10: `@type` matching is exact string equality — an array-valued
`@type` (even one containing `"Article"`), a non-matching string such
as `"NewsArticle"`, and an absent `@type` all leave the flags
untouched, and a script block whose top-level JSON value is an array is
skipped entirely. -/
theorem schema_exact_match_spec :
    (∀ (acc : SchemaFlags) (kvs : List (String × Json)) (xs : List Json),
        jget kvs "@type" = some (.arr xs) → updateItemFlags acc kvs = acc)
    ∧ (∀ (acc : SchemaFlags) (kvs : List (String × Json)) (s : String),
        jget kvs "@type" = some (.str s) → s ≠ "Article" → s ≠ "FAQPage" →
          updateItemFlags acc kvs = acc)
    ∧ (∀ (acc : SchemaFlags) (kvs : List (String × Json)),
        jget kvs "@type" = none → updateItemFlags acc kvs = acc)
    ∧ (∀ (acc : SchemaFlags) (xs : List Json),
        auditBlock acc (.parsed (.arr xs)) = .ok acc) := by
  refine ⟨?_, ?_, ?_, fun acc xs => rfl⟩
  · intro acc kvs xs h
    rw [updateItemFlags_eq, h]
    simp [isTypeMatch]
  · intro acc kvs s h hs1 hs2
    rw [updateItemFlags_eq, h]
    simp [isTypeMatch, hs1, hs2]
  · intro acc kvs h
    rw [updateItemFlags_eq, h]
    simp [isTypeMatch]

/-- Witness for `schema_exact_match_spec`: a list-valued `@type`
containing `"Article"`, the subtype string `"NewsArticle"`, and a
top-level array block all leave the flags false. -/
theorem schema_exact_match_spec_witness :
    updateItemFlags ⟨false, false⟩ [("@type", Json.arr [Json.str "Article"])]
        = ⟨false, false⟩
    ∧ updateItemFlags ⟨false, false⟩ [("@type", Json.str "NewsArticle")] = ⟨false, false⟩
    ∧ auditBlock ⟨false, false⟩
        (ScriptBlock.parsed (Json.arr [Json.obj [("@type", Json.str "FAQPage")]]))
        = .ok ⟨false, false⟩ :=
  ⟨schema_exact_match_spec.1 ⟨false, false⟩ _ [Json.str "Article"] rfl,
   schema_exact_match_spec.2.1 ⟨false, false⟩ _ "NewsArticle" rfl
     (by decide) (by decide),
   schema_exact_match_spec.2.2.2 ⟨false, false⟩ _⟩

/-- C6 (failing input): an `application/ld+json` script element with no
text child (e.g. the empty `<script type="application/ld+json"></script>`)
has bs4 `tag.string = None`, and `json.loads(None)` raises `TypeError`,
which the `except (json.JSONDecodeError, AttributeError)` handler of
analyzer.py line 119 does not catch — the scan fails on that block
instead of skipping it, and the exception escapes `analyze_url` as
well (third conjunct).  A text child that is merely malformed JSON is,
by contrast, skipped without failing, with the flags still
accumulating across the remaining blocks (second conjunct). -/
theorem audit_schema_nostring_fails :
    audit_for_schema [ScriptBlock.noString] = .error ()
    ∧ audit_for_schema [ScriptBlock.malformed,
        ScriptBlock.parsed (Json.obj [("@type", Json.str "Article")])]
      = .ok ⟨true, false⟩
    ∧ analyze_url "u"
        ⟨.response 200 "page",
         ⟨[], none, none, [], [], [ScriptBlock.noString]⟩, false,
         .error "", .error "", .error "", 0⟩
      = .error .typeError :=
  ⟨rfl, rfl, rfl⟩

/-- C7: FAQ schema synthesis filters to the pairs whose question and
answer are both non-empty, returns `None` exactly when no pair
survives the filter (in particular on an empty input or when every pair
has an empty question or answer), and otherwise serializes a FAQPage
document whose `mainEntity` holds exactly one Question entity (with an
`acceptedAnswer`) per surviving pair, in input order. -/
theorem faq_schema_spec (qna : List QnAPair) :
    (generate_faq_schema qna = none ↔ qna.filter usable = [])
    ∧ (∀ j, faqSchemaJson qna = some j →
        generate_faq_schema qna = some (Json.dumps j)
        ∧ j = Json.obj [("@context", Json.str "https://schema.org"),
              ("@type", Json.str "FAQPage"),
              ("mainEntity", Json.arr ((qna.filter usable).map mkQuestionEntity))]) := by
  by_cases h0 : qna.isEmpty
  · have hq : qna = [] := by simpa using h0
    subst hq
    refine ⟨by simp [generate_faq_schema, faqSchemaJson], ?_⟩
    intro j hj
    simp [faqSchemaJson] at hj
  · by_cases hm : qna.filter usable = []
    · refine ⟨?_, ?_⟩
      · simp [generate_faq_schema, faqSchemaJson, h0, hm]
      · intro j hj
        simp [faqSchemaJson, h0, hm] at hj
    · have hm2 : ((qna.filter usable).map mkQuestionEntity).isEmpty = false := by
        simp [List.isEmpty_eq_false, hm]
      refine ⟨?_, ?_⟩
      · constructor
        · intro h
          simp [generate_faq_schema, faqSchemaJson, h0, hm2] at h
        · intro h
          exact absurd h hm
      · intro j hj
        simp [faqSchemaJson, h0, hm2] at hj
        subst hj
        exact ⟨by simp [generate_faq_schema, faqSchemaJson, h0, hm2], rfl⟩

/-- Witness for `faq_schema_spec`: a list whose only pair has an empty
answer synthesizes nothing, and a fully-populated pair synthesizes a
schema string. -/
theorem faq_schema_spec_witness :
    generate_faq_schema [⟨"q", ""⟩] = none
    ∧ (generate_faq_schema [⟨"q", "a"⟩]).isSome = true := by
  constructor
  · exact (faq_schema_spec [⟨"q", ""⟩]).1.mpr (by decide)
  · have h := (faq_schema_spec [⟨"q", "a"⟩]).2
      (Json.obj [("@context", Json.str "https://schema.org"),
        ("@type", Json.str "FAQPage"),
        ("mainEntity", Json.arr (([⟨"q", "a"⟩] : List QnAPair).filter usable
          |>.map mkQuestionEntity))]) rfl
    rw [h.1]
    rfl

/-- C1 (failing input): `fetch_page` converts a request-layer failure
(DNS, connection, timeout — `httpx.RequestError`) into a returned
error string carrying the diagnostic, but a response with a non-2xx
status makes `raise_for_status()` raise `httpx.HTTPStatusError`, which
the `except httpx.RequestError` handler does not catch: the exception
escapes the function instead of a value being returned. -/
theorem fetch_page_status_error_escapes :
    fetch_page "u" (.response 404 "Not Found") = .error (.httpStatusError 404)
    ∧ fetch_page "u" (.requestError "boom")
        = .ok "An error occurred while requesting URL(\x27u\x27): boom"
    ∧ pyStartsWith "An error occurred"
        "An error occurred while requesting URL(\x27u\x27): boom" = true :=
  ⟨rfl, rfl, by decide⟩

/-- C2 (failing input): for a fetch that fails with a non-2xx status,
`analyze_url` propagates the uncaught `HTTPStatusError` and returns no
report at all — the `{url, error}` short-circuit only fires for
failures `fetch_page` converts to a string (second conjunct: a
request-layer failure does produce exactly the two-field report, with
no reasoning call executed). -/
theorem analyze_url_status_error_no_report :
    analyze_url "u"
        ⟨.response 404 "Not Found", emptyDoc, false, .error "", .error "", .error "", 0⟩
      = .error (.httpStatusError 404)
    ∧ analyze_url "u" defaultEnv
      = .ok (.failed "u" "An error occurred while requesting URL(\x27u\x27): boom", []) :=
  ⟨rfl, rfl⟩

/-- C9: `analyze_url` classifies the run as a fetch failure solely by
the string-prefix test `html_content.startswith("An error occurred")`
on the returned text: whenever `fetch_page` returns a value with that
prefix — even a successfully fetched page that happens to start with
it — the run returns the `{url, error}` report carrying the page's own
text, with no reasoning call executed; and every `{url, error}` report
arises exactly that way. -/
theorem analyze_url_error_prefix_classifies (url : String) (env : AnalyzeEnv) :
    (∀ html, fetch_page url env.outcome = .ok html →
        pyStartsWith "An error occurred" html = true →
        analyze_url url env = .ok (.failed url html, []))
    ∧ (∀ e t, analyze_url url env = .ok (.failed url e, t) →
        fetch_page url env.outcome = .ok e
        ∧ pyStartsWith "An error occurred" e = true ∧ t = []) := by
  constructor
  · intro html hok hpre
    simp [analyze_url, hok, hpre]
  · intro e t h
    cases ho : fetch_page url env.outcome with
    | error ex =>
      simp only [analyze_url, ho] at h
      cases h
    | ok html =>
      simp only [analyze_url, ho] at h
      by_cases hpre : pyStartsWith "An error occurred" html = true
      · rw [if_pos hpre] at h
        have h2 := h
        simp only [Except.ok.injEq, Prod.mk.injEq, Report.failed.injEq] at h2
        obtain ⟨⟨-, h3⟩, h4⟩ := h2
        cases h3
        exact ⟨rfl, hpre, h4.symm⟩
      · rw [if_neg hpre] at h
        cases haud : audit_for_schema env.doc.ldBlocks with
        | error u =>
          rw [haud] at h
          cases h
        | ok schema =>
          rw [haud] at h
          simp at h

/-- Witness for `analyze_url_error_prefix_classifies`: a page fetched
with status 200 whose body starts with the magic prefix is classified
as a failed fetch, its own text becoming the error message. -/
theorem analyze_url_error_prefix_witness :
    analyze_url "u"
        ⟨.response 200 "An error occurred page", emptyDoc, false,
         .error "", .error "", .error "", 0⟩
      = .ok (.failed "u" "An error occurred page", []) :=
  (analyze_url_error_prefix_classifies "u"
      ⟨.response 200 "An error occurred page", emptyDoc, false,
       .error "", .error "", .error "", 0⟩).1
    "An error occurred page" rfl (by decide)

/-- C8: an inbound batch (newline-separated, entries trimmed, empty
lines discarded) with more than 500 entries is rejected with the
size-cap message before any per-URL pipeline (and hence any fetch)
runs, an empty batch is rejected with a distinct message, and the two
messages differ. -/
theorem batch_validation_spec (raw : String) (envOf : String → AnalyzeEnv) :
    ((parse_batch raw).length > 500 → run_batch raw envOf = .inl batchTooManyMsg)
    ∧ ((parse_batch raw).length = 0 → run_batch raw envOf = .inl batchEmptyMsg)
    ∧ batchTooManyMsg ≠ batchEmptyMsg := by
  refine ⟨?_, ?_, by decide⟩
  · intro h
    simp [run_batch, h]
  · intro h
    have h2 : ¬ (parse_batch raw).length > 500 := by omega
    simp [run_batch, h, h2]

set_option maxRecDepth 4000 in
/-- Witness for `batch_validation_spec`: a 501-entry batch is rejected
with the size-cap message, the empty batch with the distinct empty
message. -/
theorem batch_validation_spec_witness :
    (parse_batch (repUrls 501)).length > 500
    ∧ run_batch (repUrls 501) (fun _ => defaultEnv) = .inl batchTooManyMsg
    ∧ (parse_batch "").length = 0
    ∧ run_batch "" (fun _ => defaultEnv) = .inl batchEmptyMsg :=
  ⟨by decide,
   (batch_validation_spec (repUrls 501) (fun _ => defaultEnv)).1 (by decide),
   by decide,
   (batch_validation_spec "" (fun _ => defaultEnv)).2.1 (by decide)⟩

end PageTuner
